import Mathlib

/-!
Shallow embedding of the protocol-dispatch layer of a host/foreign-runtime
interoperability library (`src/objectprotocol.rs`, `src/objects/stringutils.rs`).

The foreign runtime (an embedded interpreter) is modelled as:
  * a `Runtime` record of oracles, one per raw foreign entry point, each
    returning the raw sentinel-convention result together with the error
    payload the call deposits in the ambient error indicator (if any);
  * a `State` carrying the ambient error indicator, a reference-count map,
    a fresh-handle counter and a trace of the foreign calls performed.

Each Rust method of the `ObjectProtocol` trait is translated into a Lean
function threading this `State` explicitly.  Parts of the repository that the
methods call but whose source is not present (the `ffi` bindings, `PyErr`,
the pointer-wrapping constructors of `Python`, `PyString` internals) are
modelled from the specification and marked as such in their doc comments.
-/

namespace PyO3Spec

/-- Opaque address of a foreign object (a non-null raw pointer in the source). -/
abbrev Handle := Nat

/-- Payload of the ambient error indicator: category (exception type) and message. -/
structure ForeignError where
  category : String
  message : String
deriving DecidableEq, Repr

/-- Host-side error value (`PyErr` in the source).
`fetched p` is the result of `PyErr::fetch`, carrying whatever the ambient
indicator held (possibly nothing); `newErr ty msg` is a host-constructed
exception (`PyErr::new::<Ty,_>(msg)`); `nullHandle` is the spec's `NullHandle`
failure (null result with no ambient error set); `downcast ex` is the spec's
`DowncastError` with expected type `ex`. -/
inductive PyErr where
  | fetched : Option ForeignError → PyErr
  | newErr : String → String → PyErr
  | nullHandle : PyErr
  | downcast : String → PyErr
deriving DecidableEq, Repr

/-- Rich-comparison operator passed to the foreign comparison entry points. -/
inductive CmpOp where
  | eq | ne | lt | le | gt | ge
deriving DecidableEq, Repr

/-- Observable events: one per raw foreign call performed, plus reference-count
events for the temporary argument tuple and error-indicator fetches. -/
inductive Event where
  | richCmpCall (a b : Handle) (op : CmpOp)
  | hashCall (a : Handle)
  | isTrueCall (a : Handle)
  | hasAttrCall (a n : Handle)
  | getAttrCall (a n : Handle)
  | objectCall (f : Option Handle)
  | getItemCall (a k : Handle)
  | newTupleEv (t : Handle)
  | releaseEv (t : Handle)
  | fetchEv
deriving DecidableEq, Repr

/-- Process-wide mutable state of the foreign runtime as seen by this layer:
the ambient error indicator, the reference counts, a supply of fresh handles
and the trace of events so far. -/
structure State where
  err : Option ForeignError
  refcnt : Handle → Int
  next : Handle
  trace : List Event

/-- Behaviour of the raw foreign call surface: for each entry point, the raw
result it returns and the error payload (if any) it deposits in the ambient
indicator.  Handles and truth of comparisons are left fully abstract. -/
structure Runtime where
  richCompareBool : Handle → Handle → CmpOp → Int × Option ForeignError
  hashFn : Handle → Int × Option ForeignError
  isTrueFn : Handle → Int × Option ForeignError
  hasAttrFn : Handle → Handle → Int × Option ForeignError
  getAttrFn : Handle → Handle → Option Handle × Option ForeignError
  callFn : Handle → Handle → Option Handle → Option Handle × Option ForeignError
  getItemFn : Handle → Handle → Option Handle × Option ForeignError
  noneHandle : Handle

/-- Append one event to the trace. -/
def logEv (e : Event) (s : State) : State :=
  { s with trace := s.trace ++ [e] }

/-- Apply a foreign call's effect on the ambient error indicator: a call that
fails overwrites the indicator with its payload, a call that does not leaves
the indicator untouched. -/
def setErrIf (p : Option ForeignError) (s : State) : State :=
  match p with
  | some e => { s with err := some e }
  | none => s

/-- Modelled from the spec: `PyErr::fetch` reads the full ambient error
information exactly once and clears the indicator so it cannot be re-observed
as a stale failure by a later call (the single-fetch/single-clear discipline
of the error-translation component). -/
def pyErrFetch (s : State) : PyErr × State :=
  (.fetched s.err, logEv .fetchEv { s with err := none })

/-- Modelled from the spec: raw foreign entry point `PyObject_RichCompareBool`;
returns 1/0 for true/false and a negative value on failure, with the failure
payload deposited in the ambient indicator. -/
def ffiRichCompareBool (rt : Runtime) (a b : Handle) (op : CmpOp) (s : State) :
    Int × State :=
  let r := rt.richCompareBool a b op
  (r.1, setErrIf r.2 (logEv (.richCmpCall a b op) s))

/-- Modelled from the spec: raw foreign entry point `PyObject_Hash` ("negative
one means failure" convention, the sentinel being ambiguous with a valid hash). -/
def ffiHash (rt : Runtime) (a : Handle) (s : State) : Int × State :=
  let r := rt.hashFn a
  (r.1, setErrIf r.2 (logEv (.hashCall a) s))

/-- Translation of `ObjectProtocol::compare` (with its inner `do_compare`) from
`src/objectprotocol.rs`: three pairwise rich-comparison calls in the fixed
order Eq, Lt, Gt; raw result 1 yields the corresponding `Ordering`, a negative
raw result short-circuits with the fetched ambient error, and falling through
all three yields a host-constructed `TypeError`. -/
def compare (rt : Runtime) (a b : Handle) (s : State) :
    Except PyErr Ordering × State :=
  let r1 := ffiRichCompareBool rt a b .eq s
  if r1.1 = 1 then (.ok .eq, r1.2)
  else if r1.1 < 0 then
    let f := pyErrFetch r1.2
    (.error f.1, f.2)
  else
    let r2 := ffiRichCompareBool rt a b .lt r1.2
    if r2.1 = 1 then (.ok .lt, r2.2)
    else if r2.1 < 0 then
      let f := pyErrFetch r2.2
      (.error f.1, f.2)
    else
      let r3 := ffiRichCompareBool rt a b .gt r2.2
      if r3.1 = 1 then (.ok .gt, r3.2)
      else if r3.1 < 0 then
        let f := pyErrFetch r3.2
        (.error f.1, f.2)
      else
        (.error (.newErr "TypeError"
          "ObjectProtocol::compare(): All comparisons returned false"), r3.2)

/-- Translation of `ObjectProtocol::hash` from `src/objectprotocol.rs`: one
foreign hash call; the sentinel -1 unconditionally becomes `Err(PyErr::fetch)`,
any other value is returned as the hash. -/
def hash (rt : Runtime) (a : Handle) (s : State) : Except PyErr Int × State :=
  let v := ffiHash rt a s
  if v.1 = -1 then
    let f := pyErrFetch v.2
    (.error f.1, f.2)
  else
    (.ok v.1, v.2)

/-- Translation of `ObjectProtocol::is_true` from `src/objectprotocol.rs`: the
ternary foreign truthiness call; the sentinel -1 becomes `Err(PyErr::fetch)`,
every other raw value is collapsed to its non-zero-ness. -/
def is_true (rt : Runtime) (a : Handle) (s : State) : Except PyErr Bool × State :=
  let v := rt.isTrueFn a
  let s := setErrIf v.2 (logEv (.isTrueCall a) s)
  if v.1 = -1 then
    let f := pyErrFetch s
    (.error f.1, f.2)
  else
    (.ok (v.1 != 0), s)

/-- Translation of `ObjectProtocol::is_none` from `src/objectprotocol.rs`:
pointer identity of the handle against the runtime's singleton no-value object
(`ffi::Py_None() == self.as_ptr()`); a plain `Bool`, no failure path. -/
def is_none (rt : Runtime) (a : Handle) : Bool :=
  rt.noneHandle == a

/-- Translation of `ObjectProtocol::hasattr` from `src/objectprotocol.rs`: one
foreign has-attribute call, its raw integer compared against 0 and wrapped in
`Ok` unconditionally. -/
def hasattr (rt : Runtime) (a n : Handle) (s : State) :
    Except PyErr Bool × State :=
  let v := rt.hasAttrFn a n
  let s := setErrIf v.2 (logEv (.hasAttrCall a n) s)
  (.ok (v.1 != 0), s)

/-- Modelled from the spec: `Python::cast_from_ptr_or_err`, the
wrapper-construction path for an owned raw result (`from_owned` in §4.2).
A null handle fails, after first checking the ambient error indicator: if the
indicator is set that error is fetched and surfaced, otherwise the failure is
the `NullHandle` shape.  A non-null handle is taken over as-is (the producing
call already counted the reference). -/
def cast_from_ptr_or_err (raw : Option Handle) (s : State) :
    Except PyErr Handle × State :=
  match raw with
  | some h => (.ok h, s)
  | none =>
    match s.err with
    | some _ =>
      let f := pyErrFetch s
      (.error f.1, f.2)
    | none => (.error .nullHandle, s)

/-- Modelled from the spec: `Python::cast_from_borrowed_ptr_or_err`
(`from_borrowed` in §4.2): same null-is-error policy as the owned variant, but
a non-null borrowed handle has its reference count incremented immediately so
the wrapper's later release is balanced. -/
def cast_from_borrowed_ptr_or_err (raw : Option Handle) (s : State) :
    Except PyErr Handle × State :=
  match raw with
  | some h =>
    (.ok h,
     { s with refcnt := fun x => if x = h then s.refcnt x + 1 else s.refcnt x })
  | none =>
    match s.err with
    | some _ =>
      let f := pyErrFetch s
      (.error f.1, f.2)
    | none => (.error .nullHandle, s)

/-- Modelled from the spec: raw foreign entry point `PyObject_GetItem` ("null
means failure" convention, payload in the ambient indicator). -/
def ffiGetItem (rt : Runtime) (a k : Handle) (s : State) :
    Option Handle × State :=
  let r := rt.getItemFn a k
  (r.1, setErrIf r.2 (logEv (.getItemCall a k) s))

/-- Translation of `ObjectProtocol::get_item` from `src/objectprotocol.rs`:
one foreign item-access call, its raw (possibly null) result run through the
owned wrapper-construction path. -/
def get_item (rt : Runtime) (a k : Handle) (s : State) :
    Except PyErr Handle × State :=
  let r := ffiGetItem rt a k s
  cast_from_ptr_or_err r.1 r.2

/-- Modelled from the spec: raw foreign entry point `PyObject_GetAttr` ("null
means failure" convention, payload in the ambient indicator). -/
def ffiGetAttr (rt : Runtime) (a n : Handle) (s : State) :
    Option Handle × State :=
  let r := rt.getAttrFn a n
  (r.1, setErrIf r.2 (logEv (.getAttrCall a n) s))

/-- Modelled from the spec: `IntoPyTuple::into_tuple`, building the temporary
foreign positional-argument tuple from the host argument sequence.  It
allocates a fresh handle whose reference count carries the one owning claim the
caller must later release. -/
def into_tuple (s : State) : Handle × State :=
  let t := s.next
  (t,
   { err := s.err
     refcnt := fun x => if x = t then s.refcnt x + 1 else s.refcnt x
     next := s.next + 1
     trace := s.trace ++ [.newTupleEv t] })

/-- Modelled from the spec: `Python::release`, decrementing the reference count
of an owned wrapper exactly once. -/
def release (t : Handle) (s : State) : State :=
  { s with
    refcnt := fun x => if x = t then s.refcnt x - 1 else s.refcnt x
    trace := s.trace ++ [.releaseEv t] }

/-- Modelled from the spec: raw foreign entry point `PyObject_Call`.  The raw
foreign call surface defines calling only for a non-null callable handle;
handing it a null callable is outside every documented failure-signaling
convention and is modelled as an undefined outcome (`none`) that aborts the
host computation with no defined result state. -/
def ffiObjectCall (rt : Runtime) (f : Option Handle) (t : Handle)
    (kw : Option Handle) (s : State) : Option (Option Handle × State) :=
  match f with
  | some fh =>
    let r := rt.callFn fh t kw
    some (r.1, setErrIf r.2 (logEv (.objectCall (some fh)) s))
  | none => none

/-- Translation of `ObjectProtocol::call` from `src/objectprotocol.rs`: build
the temporary argument tuple, perform the foreign call (the callable is this
object's own non-null handle), run the raw result through the borrowed
wrapper-construction path, then release the temporary tuple on every path
before returning the result. -/
def call (rt : Runtime) (f : Handle) (kw : Option Handle) (s : State) :
    Except PyErr Handle × State :=
  let tup := into_tuple s
  let r := rt.callFn f tup.1 kw
  let s1 := setErrIf r.2 (logEv (.objectCall (some f)) tup.2)
  let res := cast_from_borrowed_ptr_or_err r.1 s1
  (res.1, release tup.1 res.2)

/-- Translation of `ObjectProtocol::call_method` from `src/objectprotocol.rs`:
build the temporary argument tuple, resolve the attribute with the raw foreign
get-attribute call, and pass the resulting raw handle — null or not — straight
to the foreign call entry point; the raw call result is then wrapped and the
tuple released.  `none` as the overall result is the undefined outcome of
invoking the foreign call with a null callable. -/
def call_method (rt : Runtime) (a n : Handle) (kw : Option Handle) (s : State) :
    Option (Except PyErr Handle × State) :=
  let tup := into_tuple s
  let at_ := ffiGetAttr rt a n tup.2
  match ffiObjectCall rt at_.1 tup.1 kw at_.2 with
  | none => none
  | some rawAndState =>
    let res := cast_from_borrowed_ptr_or_err rawAndState.1 rawAndState.2
    some (res.1, release tup.1 res.2)

/-- Rich-comparison calls extracted from a trace, in order. -/
def cmpCalls : List Event → List (Handle × Handle × CmpOp)
  | [] => []
  | .richCmpCall a b op :: es => (a, b, op) :: cmpCalls es
  | _ :: es => cmpCalls es

theorem cmpCalls_append (l1 l2 : List Event) :
    cmpCalls (l1 ++ l2) = cmpCalls l1 ++ cmpCalls l2 := by
  induction l1 with
  | nil => rfl
  | cons e es ih =>
    cases e <;> simp [cmpCalls, ih]

/-- Value-level view of a foreign object, for the string conversion adapters of
`src/objects/stringutils.rs`: either a foreign string object carrying host
text, or some other foreign object identified by its handle. -/
inductive PyObjVal where
  | pystr (t : String)
  | other (h : Handle)
deriving DecidableEq, Repr

/-- Modelled from the spec: `PyString::new` (whose source file is not present),
the encoding half of the conversion adapter; encoding never fails, as host
strings are always representable by the foreign string object. -/
def pyStringNew (t : String) : PyObjVal :=
  .pystr t

/-- Translation of `impl ToPyObject for str` from `src/objects/stringutils.rs`:
`PyString::new(py, self).into()`. -/
def strToObject (t : String) : PyObjVal :=
  pyStringNew t

/-- Modelled from the spec: `cast_as::<PyString>` (§4.2), the runtime type
check; on a foreign string it yields the typed view, on anything else it
reports the `DowncastError` shape without touching reference counts. -/
def castAsPyString (o : PyObjVal) : Except PyErr String :=
  match o with
  | .pystr t => .ok t
  | .other _ => .error (.downcast "PyString")

/-- Modelled from the spec: `PyString::to_string` (whose source file is not
present), the decoding half of the conversion adapter; it may fail only when
the foreign string's internal representation is not losslessly convertible,
which cannot happen for a string built from host text. -/
def pyStringToString (t : String) : Except PyErr String :=
  .ok t

/-- Translation of `impl FromPyObject for Cow<str>` from
`src/objects/stringutils.rs`: `try!(ob.cast_as::<PyString>()).to_string()`. -/
def extractStr (o : PyObjVal) : Except PyErr String :=
  match castAsPyString o with
  | .ok t => pyStringToString t
  | .error e => .error e

/-! Helper lemmas about the state primitives. -/

theorem setErrIf_trace (p : Option ForeignError) (s : State) :
    (setErrIf p s).trace = s.trace := by
  cases p <;> rfl

theorem setErrIf_refcnt (p : Option ForeignError) (s : State) :
    (setErrIf p s).refcnt = s.refcnt := by
  cases p <;> rfl

theorem setErrIf_none_err (s : State) : (setErrIf none s).err = s.err := rfl

theorem setErrIf_some_err (e : ForeignError) (s : State) :
    (setErrIf (some e) s).err = some e := rfl

/-! Concrete runtimes and a concrete initial state, used to evaluate the
generic theorems on specific inputs. -/

/-- Concrete base runtime: every comparison is false, every call succeeds
returning handle 0, nothing sets the ambient indicator. -/
def rt0 : Runtime where
  richCompareBool := fun _ _ _ => (0, none)
  hashFn := fun _ => (0, none)
  isTrueFn := fun _ => (0, none)
  hasAttrFn := fun _ _ => (0, none)
  getAttrFn := fun _ _ => (some 0, none)
  callFn := fun _ _ _ => (some 0, none)
  getItemFn := fun _ _ => (some 0, none)
  noneHandle := 0

/-- Concrete initial state: indicator clear, all counts zero, empty trace. -/
def st0 : State where
  err := none
  refcnt := fun _ => 0
  next := 100
  trace := []

/-- C4: for all host text values T, decoding the foreign string object produced
by encoding T yields T again; encoding is total (a plain function) and the
extraction returns exactly the original text. -/
theorem c4_string_roundtrip (t : String) :
    extractStr (strToObject t) = .ok t := rfl

/-- C7: `is_none` is a total `Bool`-valued operation (no failure path in its
type) computed as identity comparison against the runtime's singleton
no-value handle: true exactly on that singleton, false on every other handle. -/
theorem c7_is_none_iff (rt : Runtime) :
    is_none rt rt.noneHandle = true ∧
      ∀ a : Handle, a ≠ rt.noneHandle → is_none rt a = false := by
  constructor
  · simp [is_none]
  · intro a h
    simp [is_none]
    exact fun h2 => h h2.symm

/-- C7 witness: on the concrete runtime whose no-value singleton is handle 0,
`is_none` is true at 0 and false at 1. -/
theorem c7_is_none_iff_witness :
    is_none rt0 rt0.noneHandle = true ∧
      (1 : Handle) ≠ rt0.noneHandle ∧ is_none rt0 1 = false :=
  ⟨(c7_is_none_iff rt0).1, by decide, (c7_is_none_iff rt0).2 1 (by decide)⟩

/-- C8: `hasattr` always returns `Ok`: a nonzero raw has-attribute result maps
to true, a zero raw result to false, and no `Err` is ever produced, whatever
the lookup deposits in the ambient indicator. -/
theorem c8_hasattr_total (rt : Runtime) (a n : Handle) (s : State) :
    ((rt.hasAttrFn a n).1 ≠ 0 → (hasattr rt a n s).1 = .ok true) ∧
    ((rt.hasAttrFn a n).1 = 0 → (hasattr rt a n s).1 = .ok false) ∧
    ∀ e : PyErr, (hasattr rt a n s).1 ≠ .error e := by
  refine ⟨fun h => ?_, fun h => ?_, fun e h => ?_⟩
  · simp [hasattr, h]
  · simp [hasattr, h]
  · simp [hasattr] at h

/-- Concrete runtime for the C8 witness: the has-attribute call returns the
raw value 2 and also sets the ambient indicator while doing so. -/
def rtC8 : Runtime :=
  { rt0 with hasAttrFn := fun _ _ => (2, some ⟨"Exception", "set during lookup"⟩) }

/-- C8 witness: on `rtC8` the lookup sets the indicator and returns raw 2, yet
`hasattr` reports `Ok true`. -/
theorem c8_hasattr_total_witness :
    (rtC8.hasAttrFn 0 1).1 ≠ 0 ∧ (hasattr rtC8 0 1 st0).1 = .ok true :=
  ⟨by decide, (c8_hasattr_total rtC8 0 1 st0).1 (by decide)⟩

/-- C10: whenever the raw truthiness result is not the sentinel -1, `is_true`
returns `Ok` of the raw value's non-zero-ness; in particular a raw value
outside the documented ternary set, such as 2, collapses to `Ok true`. -/
theorem c10_is_true_nonsentinel (rt : Runtime) (a : Handle) (s : State)
    (h : (rt.isTrueFn a).1 ≠ -1) :
    (is_true rt a s).1 = .ok ((rt.isTrueFn a).1 != 0) := by
  simp [is_true, h]

/-- Concrete runtime for the C10 witness: the truthiness call returns raw 2. -/
def rtC10 : Runtime := { rt0 with isTrueFn := fun _ => (2, none) }

/-- C10 witness: raw truthiness 2 yields `Ok true`, not an error. -/
theorem c10_is_true_nonsentinel_witness :
    (rtC10.isTrueFn 0).1 ≠ -1 ∧ (is_true rtC10 0 st0).1 = .ok true := by
  refine ⟨by decide, ?_⟩
  rw [c10_is_true_nonsentinel rtC10 0 st0 (by decide)]
  rfl

/-- Concrete runtime for C3: the foreign hash call legitimately returns the
sentinel -1 without setting the ambient error indicator. -/
def rtC3 : Runtime := { rt0 with hashFn := fun _ => (-1, none) }

/-- C3 counterexample: starting from a clear indicator, a raw hash result of
-1 with the indicator left unset does NOT yield `Ok (-1)`; `hash` fails
unconditionally on the sentinel, fetching an empty error. -/
theorem c3_hash_sentinel_counterexample :
    (hash rtC3 0 st0).1 = .error (.fetched none) ∧
      (hash rtC3 0 st0).1 ≠ .ok (-1) := by
  refine ⟨rfl, fun h => ?_⟩
  rw [show (hash rtC3 0 st0).1 = .error (.fetched none) from rfl] at h
  exact Except.noConfusion h

/-- C3 amended: on the raw sentinel -1 `hash` returns `Err` unconditionally,
without consulting the indicator first; the fetched payload is whatever the
indicator holds after the call (the call's own error if it set one, otherwise
the pre-existing contents, possibly nothing); `Ok` is returned exactly for raw
results other than -1. -/
theorem c3_hash_sentinel_amended (rt : Runtime) (a : Handle) (s : State) :
    (∀ e : ForeignError, rt.hashFn a = (-1, some e) →
       (hash rt a s).1 = .error (.fetched (some e))) ∧
    (rt.hashFn a = (-1, none) →
       (hash rt a s).1 = .error (.fetched s.err)) ∧
    ((rt.hashFn a).1 ≠ -1 → (hash rt a s).1 = .ok (rt.hashFn a).1) := by
  refine ⟨fun e h => ?_, fun h => ?_, fun h => ?_⟩
  · simp [hash, ffiHash, h, setErrIf, logEv, pyErrFetch]
  · simp [hash, ffiHash, h, setErrIf, logEv, pyErrFetch]
  · simp [hash, ffiHash, h, setErrIf_trace, pyErrFetch]

/-- C3 amended witness: on the concrete runtime whose hash call returns the
bare sentinel, `hash` from a clear indicator yields the empty fetched error. -/
theorem c3_hash_sentinel_amended_witness :
    rtC3.hashFn 0 = (-1, none) ∧ st0.err = none ∧
      (hash rtC3 0 st0).1 = .error (.fetched none) :=
  ⟨by decide, rfl, (c3_hash_sentinel_amended rtC3 0 st0).2.1 (by decide)⟩

/-- C1: `compare` performs at most three pairwise rich-comparison calls, in
the fixed order Eq, Lt, Gt (witnessed by the comparison calls recorded in the
trace in each case); it returns `Equal` as soon as the equality test is true,
`Less` as soon as the less-than test is true, `Greater` as soon as the
greater-than test is true; when all three tests come back false it fails with
the type-mismatch-shaped incomparable error rather than panicking or returning
a default ordering; and a pairwise call that itself fails short-circuits
immediately with that failure. -/
theorem c1_compare_order (rt : Runtime) (a b : Handle) (s : State) :
    ((rt.richCompareBool a b .eq).1 = 1 →
       (compare rt a b s).1 = .ok .eq ∧
       cmpCalls (compare rt a b s).2.trace
         = cmpCalls s.trace ++ [(a, b, CmpOp.eq)]) ∧
    (∀ e : ForeignError, (rt.richCompareBool a b .eq).1 < 0 →
       (rt.richCompareBool a b .eq).2 = some e →
       (compare rt a b s).1 = .error (.fetched (some e)) ∧
       cmpCalls (compare rt a b s).2.trace
         = cmpCalls s.trace ++ [(a, b, CmpOp.eq)]) ∧
    ((rt.richCompareBool a b .eq).1 ≠ 1 →
     ¬ (rt.richCompareBool a b .eq).1 < 0 →
     (rt.richCompareBool a b .lt).1 = 1 →
       (compare rt a b s).1 = .ok .lt ∧
       cmpCalls (compare rt a b s).2.trace
         = cmpCalls s.trace ++ [(a, b, CmpOp.eq), (a, b, CmpOp.lt)]) ∧
    (∀ e : ForeignError, (rt.richCompareBool a b .eq).1 ≠ 1 →
     ¬ (rt.richCompareBool a b .eq).1 < 0 →
     (rt.richCompareBool a b .lt).1 < 0 →
     (rt.richCompareBool a b .lt).2 = some e →
       (compare rt a b s).1 = .error (.fetched (some e)) ∧
       cmpCalls (compare rt a b s).2.trace
         = cmpCalls s.trace ++ [(a, b, CmpOp.eq), (a, b, CmpOp.lt)]) ∧
    ((rt.richCompareBool a b .eq).1 ≠ 1 →
     ¬ (rt.richCompareBool a b .eq).1 < 0 →
     (rt.richCompareBool a b .lt).1 ≠ 1 →
     ¬ (rt.richCompareBool a b .lt).1 < 0 →
     (rt.richCompareBool a b .gt).1 = 1 →
       (compare rt a b s).1 = .ok .gt ∧
       cmpCalls (compare rt a b s).2.trace
         = cmpCalls s.trace
           ++ [(a, b, CmpOp.eq), (a, b, CmpOp.lt), (a, b, CmpOp.gt)]) ∧
    (∀ e : ForeignError, (rt.richCompareBool a b .eq).1 ≠ 1 →
     ¬ (rt.richCompareBool a b .eq).1 < 0 →
     (rt.richCompareBool a b .lt).1 ≠ 1 →
     ¬ (rt.richCompareBool a b .lt).1 < 0 →
     (rt.richCompareBool a b .gt).1 < 0 →
     (rt.richCompareBool a b .gt).2 = some e →
       (compare rt a b s).1 = .error (.fetched (some e)) ∧
       cmpCalls (compare rt a b s).2.trace
         = cmpCalls s.trace
           ++ [(a, b, CmpOp.eq), (a, b, CmpOp.lt), (a, b, CmpOp.gt)]) ∧
    ((rt.richCompareBool a b .eq).1 ≠ 1 →
     ¬ (rt.richCompareBool a b .eq).1 < 0 →
     (rt.richCompareBool a b .lt).1 ≠ 1 →
     ¬ (rt.richCompareBool a b .lt).1 < 0 →
     (rt.richCompareBool a b .gt).1 ≠ 1 →
     ¬ (rt.richCompareBool a b .gt).1 < 0 →
       (compare rt a b s).1 = .error (.newErr "TypeError"
         "ObjectProtocol::compare(): All comparisons returned false") ∧
       cmpCalls (compare rt a b s).2.trace
         = cmpCalls s.trace
           ++ [(a, b, CmpOp.eq), (a, b, CmpOp.lt), (a, b, CmpOp.gt)]) := by
  refine ⟨fun h1 => ?_, fun e h1 h2 => ?_, fun h1 h1' h2 => ?_,
    fun e h1 h1' h2 h3 => ?_, fun h1 h1' h2 h2' h3 => ?_,
    fun e h1 h1' h2 h2' h3 h4 => ?_, fun h1 h1' h2 h2' h3 h3' => ?_⟩
  · simp [compare, ffiRichCompareBool, pyErrFetch, logEv, setErrIf_trace,
      setErrIf_some_err, cmpCalls_append, cmpCalls, h1]
  · have hn : (rt.richCompareBool a b CmpOp.eq).1 ≠ 1 := by omega
    simp [compare, ffiRichCompareBool, pyErrFetch, logEv, setErrIf_trace,
      setErrIf_some_err, cmpCalls_append, cmpCalls, hn, h1, h2]
  · simp [compare, ffiRichCompareBool, pyErrFetch, logEv, setErrIf_trace,
      setErrIf_some_err, cmpCalls_append, cmpCalls, h1, h1', h2]
  · have hn : (rt.richCompareBool a b CmpOp.lt).1 ≠ 1 := by omega
    simp [compare, ffiRichCompareBool, pyErrFetch, logEv, setErrIf_trace,
      setErrIf_some_err, cmpCalls_append, cmpCalls, h1, h1', hn, h2, h3]
  · simp [compare, ffiRichCompareBool, pyErrFetch, logEv, setErrIf_trace,
      setErrIf_some_err, cmpCalls_append, cmpCalls, h1, h1', h2, h2', h3]
  · have hn : (rt.richCompareBool a b CmpOp.gt).1 ≠ 1 := by omega
    simp [compare, ffiRichCompareBool, pyErrFetch, logEv, setErrIf_trace,
      setErrIf_some_err, cmpCalls_append, cmpCalls, h1, h1', h2, h2', hn, h3, h4]
  · simp [compare, ffiRichCompareBool, pyErrFetch, logEv, setErrIf_trace,
      setErrIf_some_err, cmpCalls_append, cmpCalls, h1, h1', h2, h2', h3, h3']

/-- C1 witness: on the concrete runtime where every pairwise test returns
false, `compare` performs exactly the three calls Eq, Lt, Gt and fails with the
incomparable `TypeError`. -/
theorem c1_compare_order_witness :
    ((rt0.richCompareBool 0 1 .eq).1 ≠ 1 ∧
     ¬ (rt0.richCompareBool 0 1 .eq).1 < 0 ∧
     (rt0.richCompareBool 0 1 .lt).1 ≠ 1 ∧
     ¬ (rt0.richCompareBool 0 1 .lt).1 < 0 ∧
     (rt0.richCompareBool 0 1 .gt).1 ≠ 1 ∧
     ¬ (rt0.richCompareBool 0 1 .gt).1 < 0) ∧
    (compare rt0 0 1 st0).1 = .error (.newErr "TypeError"
      "ObjectProtocol::compare(): All comparisons returned false") ∧
    cmpCalls (compare rt0 0 1 st0).2.trace
      = [(0, 1, CmpOp.eq), (0, 1, CmpOp.lt), (0, 1, CmpOp.gt)] := by
  refine ⟨by refine ⟨?_, ?_, ?_, ?_, ?_, ?_⟩ <;> decide, ?_⟩
  have h := (c1_compare_order rt0 0 1 st0).2.2.2.2.2.2
    (by decide) (by decide) (by decide) (by decide) (by decide) (by decide)
  exact h

/-- C2: the ambient error is fetched exactly once per failure and never again:
a failing comparison surfaces its fetched error and leaves the indicator
clear, so a subsequent succeeding hash call reports its own result and the
final trace shows exactly one fetch event for the whole sequence. -/
theorem c2_single_fetch (rt : Runtime) (a b c : Handle) (s : State)
    (e : ForeignError) (v : Int)
    (h1 : rt.richCompareBool a b .eq = (-1, some e))
    (h2 : rt.hashFn c = (v, none)) (h3 : v ≠ -1) :
    (compare rt a b s).1 = .error (.fetched (some e)) ∧
    (compare rt a b s).2.err = none ∧
    (hash rt c (compare rt a b s).2).1 = .ok v ∧
    (hash rt c (compare rt a b s).2).2.err = none ∧
    (hash rt c (compare rt a b s).2).2.trace =
      s.trace ++ [.richCmpCall a b .eq, .fetchEv, .hashCall c] := by
  have hcmp : compare rt a b s
      = (.error (.fetched (some e)),
         { err := none
           refcnt := s.refcnt
           next := s.next
           trace := s.trace ++ [.richCmpCall a b .eq, .fetchEv] }) := by
    simp [compare, ffiRichCompareBool, h1, pyErrFetch, logEv, setErrIf]
  rw [hcmp]
  simp [hash, ffiHash, h2, h3, setErrIf, logEv, pyErrFetch]

/-- Concrete runtime for the C2 witness: every comparison call fails with a
TypeError payload, every hash call succeeds with raw value 5. -/
def rtC2 : Runtime :=
  { rt0 with
      richCompareBool := fun _ _ _ => (-1, some ⟨"TypeError", "bad compare"⟩)
      hashFn := fun _ => (5, none) }

/-- C2 witness: on `rtC2`, a failing compare then a succeeding hash shows the
first call's fetched error once, `Ok 5` on the second call, a clear indicator
afterwards, and a single fetch event in the trace. -/
theorem c2_single_fetch_witness :
    rtC2.richCompareBool 0 1 .eq = (-1, some ⟨"TypeError", "bad compare"⟩) ∧
    rtC2.hashFn 2 = (5, none) ∧
    (compare rtC2 0 1 st0).1
      = .error (.fetched (some ⟨"TypeError", "bad compare"⟩)) ∧
    (hash rtC2 2 (compare rtC2 0 1 st0).2).1 = .ok 5 ∧
    (hash rtC2 2 (compare rtC2 0 1 st0).2).2.err = none ∧
    (hash rtC2 2 (compare rtC2 0 1 st0).2).2.trace
      = [.richCmpCall 0 1 .eq, .fetchEv, .hashCall 2] := by
  have h := c2_single_fetch rtC2 0 1 2 st0 ⟨"TypeError", "bad compare"⟩ 5
    (by decide) (by decide) (by decide)
  exact ⟨by decide, by decide, h.1, h.2.2.1, h.2.2.2.1, h.2.2.2.2⟩

/-- C6: the owned wrapper-construction path behind `get_item` checks the
ambient indicator before deciding the failure shape of a null raw handle: a
null with an error payload (e.g. the KeyError of an absent mapping key)
surfaces that fetched error, never `NullHandle`; a null with a pre-set
indicator surfaces the pre-set error; only a null with no ambient error at all
yields `NullHandle`; and a non-null handle succeeds. -/
theorem c6_get_item_null_policy (rt : Runtime) (a k : Handle) (s : State) :
    (∀ e : ForeignError, rt.getItemFn a k = (none, some e) →
       (get_item rt a k s).1 = .error (.fetched (some e)) ∧
       (get_item rt a k s).1 ≠ .error .nullHandle) ∧
    (rt.getItemFn a k = (none, none) → s.err = none →
       (get_item rt a k s).1 = .error .nullHandle) ∧
    (∀ e0 : ForeignError, rt.getItemFn a k = (none, none) → s.err = some e0 →
       (get_item rt a k s).1 = .error (.fetched (some e0))) ∧
    (∀ h : Handle, (rt.getItemFn a k).1 = some h →
       (get_item rt a k s).1 = .ok h) := by
  refine ⟨fun e h => ?_, fun h hs => ?_, fun e0 h hs => ?_, fun hh h => ?_⟩
  · constructor <;>
      simp [get_item, ffiGetItem, cast_from_ptr_or_err, h, setErrIf, logEv,
        pyErrFetch]
  · simp [get_item, ffiGetItem, cast_from_ptr_or_err, h, hs, setErrIf, logEv]
  · simp [get_item, ffiGetItem, cast_from_ptr_or_err, h, hs, setErrIf, logEv,
      pyErrFetch]
  · simp [get_item, ffiGetItem, cast_from_ptr_or_err, h, setErrIf_trace, logEv]

/-- Concrete runtime for the C6 witness: item access on an absent key returns
null and deposits a KeyError in the ambient indicator. -/
def rtC6 : Runtime :=
  { rt0 with getItemFn := fun _ _ => (none, some ⟨"KeyError", "absent key"⟩) }

/-- C6 witness: on `rtC6`, `get_item` surfaces the fetched KeyError-category
error and not `NullHandle`. -/
theorem c6_get_item_null_policy_witness :
    rtC6.getItemFn 0 7 = (none, some ⟨"KeyError", "absent key"⟩) ∧
    (get_item rtC6 0 7 st0).1
      = .error (.fetched (some ⟨"KeyError", "absent key"⟩)) ∧
    (get_item rtC6 0 7 st0).1 ≠ .error .nullHandle :=
  ⟨by decide,
   ((c6_get_item_null_policy rtC6 0 7 st0).1 ⟨"KeyError", "absent key"⟩
     (by decide)).1,
   ((c6_get_item_null_policy rtC6 0 7 st0).1 ⟨"KeyError", "absent key"⟩
     (by decide)).2⟩

/-- C9: in `call` the temporary argument tuple (handle `s.next`) is created
once and released exactly once on every exit path — the trace extension holds
exactly one release event and one creation event for it whether the foreign
call succeeds or fails — and, provided the call's raw result is not the tuple
itself, the tuple's reference count is restored to its initial value. -/
theorem c9_call_tuple_balanced (rt : Runtime) (f : Handle) (kw : Option Handle)
    (s : State) :
    (∃ δ : List Event, (call rt f kw s).2.trace = s.trace ++ δ ∧
       δ.count (Event.releaseEv s.next) = 1 ∧
       δ.count (Event.newTupleEv s.next) = 1) ∧
    ((rt.callFn f s.next kw).1 ≠ some s.next →
       (call rt f kw s).2.refcnt s.next = s.refcnt s.next) := by
  rcases hc : rt.callFn f s.next kw with ⟨raw, p⟩
  cases raw with
  | some h =>
    constructor
    · refine ⟨[.newTupleEv s.next, .objectCall (some f), .releaseEv s.next],
        ?_, ?_, ?_⟩
      · simp [call, into_tuple, hc, cast_from_borrowed_ptr_or_err, release,
          setErrIf_trace, logEv]
      · simp [List.count_cons, List.count_nil]
      · simp [List.count_cons, List.count_nil]
    · intro hne
      simp only [ne_eq, Option.some.injEq] at hne
      simp [call, into_tuple, hc, cast_from_borrowed_ptr_or_err, release,
        setErrIf_refcnt, logEv, Ne.symm hne]
  | none =>
    cases p with
    | some e =>
      constructor
      · refine ⟨[.newTupleEv s.next, .objectCall (some f), .fetchEv,
          .releaseEv s.next], ?_, ?_, ?_⟩
        · simp [call, into_tuple, hc, cast_from_borrowed_ptr_or_err, release,
            setErrIf, logEv, pyErrFetch]
        · simp [List.count_cons, List.count_nil]
        · simp [List.count_cons, List.count_nil]
      · intro _
        simp [call, into_tuple, hc, cast_from_borrowed_ptr_or_err, release,
          setErrIf, logEv, pyErrFetch]
    | none =>
      cases herr : s.err with
      | some e0 =>
        constructor
        · refine ⟨[.newTupleEv s.next, .objectCall (some f), .fetchEv,
            .releaseEv s.next], ?_, ?_, ?_⟩
          · simp [call, into_tuple, hc, cast_from_borrowed_ptr_or_err, release,
              setErrIf, logEv, pyErrFetch, herr]
          · simp [List.count_cons, List.count_nil]
          · simp [List.count_cons, List.count_nil]
        · intro _
          simp [call, into_tuple, hc, cast_from_borrowed_ptr_or_err, release,
            setErrIf, logEv, pyErrFetch, herr]
      | none =>
        constructor
        · refine ⟨[.newTupleEv s.next, .objectCall (some f),
            .releaseEv s.next], ?_, ?_, ?_⟩
          · simp [call, into_tuple, hc, cast_from_borrowed_ptr_or_err, release,
              setErrIf, logEv, herr]
          · simp [List.count_cons, List.count_nil]
          · simp [List.count_cons, List.count_nil]
        · intro _
          simp [call, into_tuple, hc, cast_from_borrowed_ptr_or_err, release,
            setErrIf, logEv, herr]

/-- Concrete runtime for the C9 witness: the foreign call fails (null result)
and deposits a RuntimeError payload. -/
def rtC9 : Runtime :=
  { rt0 with callFn := fun _ _ _ => (none, some ⟨"RuntimeError", "call failed"⟩) }

/-- C9 witness: on `rtC9` (a failing foreign call) the temporary tuple,
handle 100, is still created and released exactly once and its count restored. -/
theorem c9_call_tuple_balanced_witness :
    (∃ δ : List Event, (call rtC9 3 none st0).2.trace = st0.trace ++ δ ∧
       δ.count (Event.releaseEv st0.next) = 1 ∧
       δ.count (Event.newTupleEv st0.next) = 1) ∧
    ((rtC9.callFn 3 st0.next none).1 ≠ some st0.next ∧
      (call rtC9 3 none st0).2.refcnt st0.next = st0.refcnt st0.next) :=
  ⟨(c9_call_tuple_balanced rtC9 3 none st0).1,
   by decide,
   (c9_call_tuple_balanced rtC9 3 none st0).2 (by decide)⟩

/-- C5: whenever attribute resolution inside `call_method` fails (the raw
get-attribute call returns null), the method does NOT short-circuit with the
attribute-resolution error: it hands the null callable straight to the foreign
call entry point, which is the undefined outcome of the model — so no result
(in particular, not the attribute-resolution error) is produced. -/
theorem c5_call_method_null_callable (rt : Runtime) (a n : Handle)
    (kw : Option Handle) (s : State)
    (h : (rt.getAttrFn a n).1 = none) :
    call_method rt a n kw s = none ∧
      ∀ out : Except PyErr Handle × State, call_method rt a n kw s ≠ some out := by
  have hm : call_method rt a n kw s = none := by
    simp [call_method, ffiGetAttr, ffiObjectCall, h]
  exact ⟨hm, fun out hout => by rw [hm] at hout; exact Option.noConfusion hout⟩

/-- Concrete runtime for the C5 witness: attribute resolution fails with an
AttributeError payload, while a (well-defined) foreign call would succeed. -/
def rtC5 : Runtime :=
  { rt0 with
      getAttrFn := fun _ _ => (none, some ⟨"AttributeError", "nonexistent"⟩) }

/-- C5 witness (the failing input): calling a nonexistent method on `rtC5`
reaches the undefined null-callable foreign call instead of returning the
AttributeError. -/
theorem c5_call_method_null_callable_witness :
    (rtC5.getAttrFn 0 1).1 = none ∧ call_method rtC5 0 1 none st0 = none :=
  ⟨by decide, (c5_call_method_null_callable rtC5 0 1 none st0 (by decide)).1⟩

end PyO3Spec
